import Mathlib

/-!
Verification of the libpeeler specification against the C sources.

This development gives a shallow embedding, in Lean 4, of the parts of the
libpeeler library (classic Macintosh archive unpacking: StuffIt, Compact Pro,
BinHex, MacBinary) that the checked properties talk about.  Bytes are
modelled as `Nat` values below 256, buffers as `List Nat`, fallible
operations as `Except String`, and the C `setjmp`/`longjmp` abort pattern as
early returns of `Except.error`.  Machine-integer truncation is written out
explicitly (`&&& 0xFF`, `% 2^n`) at the places the C relies on it.

Each embedded definition is a direct translation of the function of the same
name in the C sources (`lib/peeler.c`, `lib/formats/sit.c`,
`lib/formats/bin.c`, `lib/formats/cpt.c`, `lib/formats/hqx.c`).  A few small
helpers (`rd16be`, `rd32be`, `crc16_ccitt`) live in `lib/util.c` /
`internal.h`, which are not part of the provided sources; those are modelled
from the specification documents and are marked as such.  Error messages
keep the C format strings' fixed text but omit `printf`-interpolated numeric
payloads (for example CRC values); no property below depends on those.
-/

namespace Peeler

-- ===========================================================================
-- Byte-buffer helpers
-- ===========================================================================

/-- Bytes starting at offset `off`, at most `len` of them, of a buffer. -/
def slice (l : List Nat) (off len : Nat) : List Nat :=
  (l.drop off).take len

/-- Modelled from the spec: `rd16be` from `lib/util.c` (not under `src/`);
"All multi-byte integers are big-endian".  Reads two bytes starting at the
head of the list (the list stands for the C pointer `p`). -/
def rd16be (l : List Nat) : Nat :=
  256 * l.getD 0 0 + l.getD 1 0

/-- Modelled from the spec: `rd32be` from `lib/util.c` (not under `src/`);
big-endian 32-bit read at the head of the list. -/
def rd32be (l : List Nat) : Nat :=
  16777216 * l.getD 0 0 + 65536 * l.getD 1 0 + 256 * l.getD 2 0 + l.getD 3 0

/-- Modelled from the spec: one byte step of CRC-16/XMODEM (polynomial
`0x1021`, no reflection), the bit-level algorithm of `hqx.md` § 7.1:
XOR the byte into the high byte of the register, then eight shift-XOR
rounds.  `crc16_ccitt` lives in `lib/util.c`, which is not under `src/`. -/
def crc16_step (crc b : Nat) : Nat :=
  let c0 := (crc ^^^ (b <<< 8)) &&& 0xFFFF
  let round := fun (c : Nat) =>
    if c &&& 0x8000 ≠ 0 then ((c <<< 1) ^^^ 0x1021) &&& 0xFFFF else (c <<< 1) &&& 0xFFFF
  round (round (round (round (round (round (round (round c0)))))))

/-- Modelled from the spec: `crc16_ccitt_update` from `lib/util.c` (not under
`src/`): fold `crc16_step` over a byte buffer, continuing from `crc`. -/
def crc16_ccitt_update (crc : Nat) (buf : List Nat) : Nat :=
  buf.foldl crc16_step crc

/-- Modelled from the spec: `crc16_ccitt` from `lib/util.c` (not under
`src/`): CRC-16/XMODEM with initial value 0. -/
def crc16_ccitt (buf : List Nat) : Nat :=
  crc16_ccitt_update 0 buf

-- ===========================================================================
-- Compact Pro RLE decoder — cpt.c (`cp_rle_t`, `cp_rle_init`, `cp_rle_read`)
-- ===========================================================================

/-- RLE decoder state with half-escape handling (`cp_rle_t` in cpt.c).
The byte-supplier callback of the C (`cp_getbyte_fn`) is modelled by
carrying the remaining source bytes as a list (`cp_memsrc_t` over memory). -/
structure CpRle where
  prev_byte : Nat
  run_left : Nat
  escape_pending : Bool
  deriving Repr, DecidableEq

/-- `cp_rle_init` in cpt.c: zero-initialised state. -/
def cp_rle_init : CpRle :=
  { prev_byte := 0, run_left := 0, escape_pending := false }

/-- `cp_rle_read` in cpt.c: read up to `max` decompressed bytes.  Every
iteration of the C `while` loop either writes exactly one byte or returns,
so the recursion is on `max`.  Returns the produced bytes together with the
final decoder state and the unconsumed source bytes. -/
def cp_rle_read (r : CpRle) (src : List Nat) : Nat → List Nat × CpRle × List Nat
  | 0 => ([], r, src)
  | max + 1 =>
    -- Drain pending run copies first.
    if 0 < r.run_left then
      let r' := { r with run_left := r.run_left - 1 }
      let (out, rf, sf) := cp_rle_read r' src max
      (r.prev_byte :: out, rf, sf)
    else
      -- Get source byte — either from half-escape injection or from stream.
      let fetched : Option (Nat × CpRle × List Nat) :=
        if r.escape_pending then
          some (0x81, { r with escape_pending := false }, src)
        else
          match src with
          | [] => none
          | b :: rest => some (b, r, rest)
      match fetched with
      | none => ([], r, src)
      | some (byte_val, r1, src1) =>
        if byte_val ≠ 0x81 then
          -- Normal literal byte.
          let r2 := { r1 with prev_byte := byte_val }
          let (out, rf, sf) := cp_rle_read r2 src1 max
          (byte_val :: out, rf, sf)
        else
          -- Escape start (0x81) — read next byte.
          match src1 with
          | [] => ([], r1, src1)
          | next :: src2 =>
            if next = 0x82 then
              -- RLE run: 0x81 0x82 <count>
              match src2 with
              | [] => ([], r1, src2)
              | count :: src3 =>
                if count = 0 then
                  -- Literal 0x81 followed by 0x82.
                  let r2 := { r1 with prev_byte := 0x82, run_left := 1 }
                  let (out, rf, sf) := cp_rle_read r2 src3 max
                  (0x81 :: out, rf, sf)
                else
                  -- Repeat prev_byte: emit once now + (count-2) more.
                  let r2 := { r1 with run_left := if 2 ≤ count then count - 2 else 0 }
                  let (out, rf, sf) := cp_rle_read r2 src3 max
                  (r1.prev_byte :: out, rf, sf)
            else if next = 0x81 then
              -- Half-escape (0x81 0x81): emit one literal 0x81, inject a
              -- phantom 0x81 that re-enters the top of the loop.
              let r2 := { r1 with prev_byte := 0x81, escape_pending := true }
              let (out, rf, sf) := cp_rle_read r2 src2 max
              (0x81 :: out, rf, sf)
            else
              -- Simple escape (0x81 <X>): literal 0x81 then X.
              let r2 := { r1 with prev_byte := next, run_left := 1 }
              let (out, rf, sf) := cp_rle_read r2 src2 max
              (0x81 :: out, rf, sf)

/-- Full Compact Pro RLE decode of an in-memory byte list: `cp_rle_read`
from a fresh decoder over a memory source, with a `max` large enough that
the whole input is consumed and all pending run copies are drained (every
source byte contributes at most 256 output bytes, so `256 * src.length +
256` bounds the total output of any input). -/
def cp_rle_decode (src : List Nat) : List Nat :=
  (cp_rle_read cp_rle_init src (256 * src.length + 256)).1

-- ===========================================================================
-- StuffIt RLE90 decoder — sit.c `decompress_fork`, method 1
-- ===========================================================================

/-- The `case 1` loop body of `decompress_fork` in sit.c (method 1, RLE90).
State is the `last_byte` local (initialised to 0 by the caller); recursion is
on the remaining source bytes, which the loop consumes at least one of per
iteration.  `room` is `raw_len - produced`, the space left in the output
buffer; runs are clamped to it as in the C (`if (produced + repeats >
raw_len) repeats = raw_len - produced`). -/
def sit_rle90_go (last_byte : Nat) (room : Nat) : List Nat → List Nat
  | [] => []
  | b :: rest =>
    if room = 0 then []
    else if b ≠ 0x90 then
      -- Literal byte
      b :: sit_rle90_go b (room - 1) rest
    else
      match rest with
      | [] => []
      | n :: rest2 =>
        if n = 0 then
          -- Literal 0x90 (do not update last_byte)
          0x90 :: sit_rle90_go last_byte (room - 1) rest2
        else if 1 < n then
          -- Repeat last_byte (n-1) additional times, clamped to room
          let repeats := min (n - 1) room
          List.replicate repeats last_byte ++ sit_rle90_go last_byte (room - repeats) rest2
        else
          -- n == 1 means zero additional copies
          sit_rle90_go last_byte room rest2

/-- StuffIt RLE90 (method 1) decode: `last_byte` starts at 0 and at most
`raw_len` bytes are produced (sit.c `decompress_fork`, `case 1`). -/
def sit_rle90 (raw_len : Nat) (src : List Nat) : List Nat :=
  sit_rle90_go 0 raw_len src

-- ===========================================================================
-- StuffIt LZW decoder — sit.c (`lzw_state_t`, `lzw_create`, `lzw_next_code`,
-- `lzw_expand`, `lzw_add_entry`, `lzw_decode`)
-- ===========================================================================

/-- sit.c `LZW_MAX_BITS`. -/
abbrev LZW_MAX_BITS : Nat := 14

/-- sit.c `LZW_TABLE_CAP` (`1 << LZW_MAX_BITS`). -/
abbrev LZW_TABLE_CAP : Nat := 16384

/-- sit.c `LZW_CLEAR_CODE`. -/
abbrev LZW_CLEAR_CODE : Nat := 256

/-- sit.c `LZW_FIRST_NEW`. -/
abbrev LZW_FIRST_NEW : Nat := 257

/-- LZW decoder state (`lzw_state_t` in sit.c).  The four parallel
`calloc`-zeroed arrays of `LZW_TABLE_CAP` entries are modelled as total
functions on indices, zero outside the initialised region, exactly like the
zero-filled C arrays.  The staging buffer with its read/length cursors is
modelled as the list of bytes still to be drained.  `prev == -1` in the C is
`none`. -/
structure LzwState where
  src : List Nat
  src_bytes : Nat
  bit_pos : Nat
  prev_code : Nat → Nat
  suffix : Nat → Nat
  head : Nat → Nat
  chain_len : Nat → Nat
  tbl_next : Nat
  code_bits : Nat
  prev : Option Nat
  block_count : Nat
  stage : List Nat

/-- sit.c `lzw_create`: root entries 0–255 are identity codes with back-link
sentinel `UINT16_MAX`; code width 9; first free slot 257. -/
def lzw_create (src : List Nat) : LzwState :=
  { src := src
    src_bytes := src.length
    bit_pos := 0
    prev_code := fun i => if i < 256 then 65535 else 0
    suffix := fun i => if i < 256 then i else 0
    head := fun i => if i < 256 then i else 0
    chain_len := fun i => if i < 256 then 1 else 0
    tbl_next := LZW_FIRST_NEW
    code_bits := 9
    prev := none
    block_count := 0
    stage := [] }

/-- sit.c `lzw_next_code`: read one code from the little-endian bitstream.
Up to four bytes starting at the byte boundary enter a little-endian
accumulator (bytes past the end contribute zero, as in the C `memcpy` into a
zeroed `uint32_t`); `none` models the C return value `-1` on exhaustion. -/
def lzw_next_code (z : LzwState) : Option (Nat × LzwState) :=
  let byte_off := z.bit_pos >>> 3
  if z.src_bytes ≤ byte_off then none
  else
    let acc := z.src.getD byte_off 0 + 256 * z.src.getD (byte_off + 1) 0 +
               65536 * z.src.getD (byte_off + 2) 0 + 16777216 * z.src.getD (byte_off + 3) 0
    let shift := z.bit_pos &&& 7
    let mask := (1 <<< z.code_bits) - 1
    let code := (acc >>> shift) &&& mask
    some (code, { z with bit_pos := z.bit_pos + z.code_bits,
                         block_count := z.block_count + 1 })

/-- The backward chain walk shared by `lzw_expand` and the KwKwK branch of
`lzw_decode` in sit.c: starting from code `cur` with `pos` staging slots
left, prepend `suffix[cur]` and follow `prev_code[cur]` until the sentinel
`UINT16_MAX` or the slots run out.  The result is the filled (compacted)
staging buffer. -/
def lzw_chain (z : LzwState) : Nat → Nat → List Nat → List Nat
  | _, 0, acc => acc
  | cur, pos + 1, acc =>
    if cur = 65535 then acc
    else lzw_chain z (z.prev_code cur) pos (z.suffix cur :: acc)

/-- sit.c `lzw_expand`: expand `code` into the staging buffer by walking the
dictionary chain backward; the length is clamped to the staging capacity. -/
def lzw_expand (z : LzwState) (code : Nat) : LzwState :=
  let len := min (z.chain_len code) LZW_TABLE_CAP
  { z with stage := lzw_chain z code len [] }

/-- sit.c `lzw_add_entry`: add a dictionary entry and widen the code width at
power-of-two boundaries (max 14 bits).  A full table is left unchanged. -/
def lzw_add_entry (z : LzwState) (prev_val first_byte : Nat) : LzwState :=
  if LZW_TABLE_CAP ≤ z.tbl_next then z
  else
    let idx := z.tbl_next
    { z with
      prev_code := fun j => if j = idx then prev_val else z.prev_code j
      suffix := fun j => if j = idx then first_byte else z.suffix j
      head := fun j => if j = idx then z.head prev_val else z.head j
      chain_len := fun j => if j = idx then z.chain_len prev_val + 1 else z.chain_len j
      tbl_next := idx + 1
      code_bits :=
        if idx + 1 < LZW_TABLE_CAP ∧ (idx + 1) &&& idx = 0 ∧ z.code_bits < LZW_MAX_BITS
        then z.code_bits + 1 else z.code_bits }

/-- sit.c `lzw_decode`: produce up to `want` decompressed bytes, returning
the bytes together with the final state.  The C `while (got < want)` loop is
driven here by a fuel parameter: every iteration either drains at least one
staged byte or advances `bit_pos` by the (always positive) code width, so
any fuel of at least `want + 8 * src_bytes + 1` reproduces the loop exactly;
callers pass such a value. -/
def lzw_decode (z : LzwState) (want : Nat) : Nat → List Nat × LzwState
  | 0 => ([], z)
  | fuel + 1 =>
    if want = 0 then ([], z)
    else if z.stage ≠ [] then
      -- Drain staging buffer first
      let n := min z.stage.length want
      let out1 := z.stage.take n
      let r := lzw_decode { z with stage := z.stage.drop n } (want - n) fuel
      (out1 ++ r.1, r.2)
    else
      match lzw_next_code z with
      | none => ([], z)
      | some (code, z1) =>
        if code = LZW_CLEAR_CODE then
          -- Clear code resets dictionary and skips remaining 8-code block
          let z2 :=
            { z1 with
              bit_pos := z1.bit_pos +
                (if z1.block_count &&& 7 ≠ 0
                 then z1.code_bits * (8 - (z1.block_count &&& 7)) else 0)
              tbl_next := LZW_FIRST_NEW
              code_bits := 9
              prev := none
              block_count := 0 }
          lzw_decode z2 want fuel
        else
          match z1.prev with
          | none =>
            -- First code after reset: single byte, no dict entry added
            let z2 := { z1 with prev := some code }
            if code < 256 then
              let r := lzw_decode z2 (want - 1) fuel
              (code :: r.1, r.2)
            else lzw_decode z2 want fuel
          | some p =>
            -- KwKwK case: determine first byte of expansion
            let first_ch := if code < z1.tbl_next then z1.head code else z1.head p
            -- Add new dictionary entry: prev + first_ch
            let z2 := lzw_add_entry z1 p first_ch
            -- Expand current code (or synthesize KwKwK)
            let z3 :=
              if code < z2.tbl_next then lzw_expand z2 code
              else
                let len := min (z2.chain_len p + 1) LZW_TABLE_CAP
                { z2 with stage := lzw_chain z2 p (len - 1) [first_ch] }
            lzw_decode { z3 with prev := some code } want fuel

/-- Fuel that makes `lzw_decode` reproduce the C loop (see `lzw_decode`). -/
def lzw_fuel (z : LzwState) (want : Nat) : Nat :=
  want + 8 * z.src_bytes + 1

/-- The dictionary-size and code-width invariant of the LZW decoder: at
most `LZW_TABLE_CAP` (16384) entries, code width between 9 and
`LZW_MAX_BITS` (14) bits. -/
abbrev lzw_inv (z : LzwState) : Prop :=
  z.tbl_next ≤ LZW_TABLE_CAP ∧ 9 ≤ z.code_bits ∧ z.code_bits ≤ LZW_MAX_BITS

-- ===========================================================================
-- Extracted files — peel_meta_t / peel_file_t / peel_file_list_t
-- ===========================================================================

/-- Modelled from the spec: `peel_meta_t` (declared in `peeler.h`, which is
not under `src/`): a filename of at most 255 bytes plus type, creator and
Finder-flag integers (spec § 3 "File Metadata"). -/
structure PeelMeta where
  name : List Nat
  mac_type : Nat
  mac_creator : Nat
  finder_flags : Nat
  deriving Repr, DecidableEq

/-- Modelled from the spec: `peel_file_t` (declared in `peeler.h`, not under
`src/`): metadata plus two byte buffers; empty forks are zero-length
buffers (spec § 3 "Extracted File"). -/
structure PeelFile where
  meta : PeelMeta
  data_fork : List Nat
  resource_fork : List Nat
  deriving Repr, DecidableEq

/-- The all-zero metadata of a `calloc`-ed `peel_file_t`. -/
def zeroMeta : PeelMeta :=
  { name := [], mac_type := 0, mac_creator := 0, finder_flags := 0 }

-- ===========================================================================
-- StuffIt CRC-16 — sit.c (`sit_crc_table`, `sit_crc_update`, `sit_crc`)
-- ===========================================================================

/-- sit.c `sit_crc_table`: lookup table for the reflected CRC-16 with
polynomial 0x8005 (table polynomial 0xA001), copied verbatim. -/
def sit_crc_table : List Nat := [
  0x0000,0xC0C1,0xC181,0x0140,0xC301,0x03C0,0x0280,0xC241,
  0xC601,0x06C0,0x0780,0xC741,0x0500,0xC5C1,0xC481,0x0440,
  0xCC01,0x0CC0,0x0D80,0xCD41,0x0F00,0xCFC1,0xCE81,0x0E40,
  0x0A00,0xCAC1,0xCB81,0x0B40,0xC901,0x09C0,0x0880,0xC841,
  0xD801,0x18C0,0x1980,0xD941,0x1B00,0xDBC1,0xDA81,0x1A40,
  0x1E00,0xDEC1,0xDF81,0x1F40,0xDD01,0x1DC0,0x1C80,0xDC41,
  0x1400,0xD4C1,0xD581,0x1540,0xD701,0x17C0,0x1680,0xD641,
  0xD201,0x12C0,0x1380,0xD341,0x1100,0xD1C1,0xD081,0x1040,
  0xF001,0x30C0,0x3180,0xF141,0x3300,0xF3C1,0xF281,0x3240,
  0x3600,0xF6C1,0xF781,0x3740,0xF501,0x35C0,0x3480,0xF441,
  0x3C00,0xFCC1,0xFD81,0x3D40,0xFF01,0x3FC0,0x3E80,0xFE41,
  0xFA01,0x3AC0,0x3B80,0xFB41,0x3900,0xF9C1,0xF881,0x3840,
  0x2800,0xE8C1,0xE981,0x2940,0xEB01,0x2BC0,0x2A80,0xEA41,
  0xEE01,0x2EC0,0x2F80,0xEF41,0x2D00,0xEDC1,0xEC81,0x2C40,
  0xE401,0x24C0,0x2580,0xE541,0x2700,0xE7C1,0xE681,0x2640,
  0x2200,0xE2C1,0xE381,0x2340,0xE101,0x21C0,0x2080,0xE041,
  0xA001,0x60C0,0x6180,0xA141,0x6300,0xA3C1,0xA281,0x6240,
  0x6600,0xA6C1,0xA781,0x6740,0xA501,0x65C0,0x6480,0xA441,
  0x6C00,0xACC1,0xAD81,0x6D40,0xAF01,0x6FC0,0x6E80,0xAE41,
  0xAA01,0x6AC0,0x6B80,0xAB41,0x6900,0xA9C1,0xA881,0x6840,
  0x7800,0xB8C1,0xB981,0x7940,0xBB01,0x7BC0,0x7A80,0xBA41,
  0xBE01,0x7EC0,0x7F80,0xBF41,0x7D00,0xBDC1,0xBC81,0x7C40,
  0xB401,0x74C0,0x7580,0xB541,0x7700,0xB7C1,0xB681,0x7640,
  0x7200,0xB2C1,0xB381,0x7340,0xB101,0x71C0,0x7080,0xB041,
  0x5000,0x90C1,0x9181,0x5140,0x9301,0x53C0,0x5280,0x9241,
  0x9601,0x56C0,0x5780,0x9741,0x5500,0x95C1,0x9481,0x5440,
  0x9C01,0x5CC0,0x5D80,0x9D41,0x5F00,0x9FC1,0x9E81,0x5E40,
  0x5A00,0x9AC1,0x9B81,0x5B40,0x9901,0x59C0,0x5880,0x9841,
  0x8801,0x48C0,0x4980,0x8941,0x4B00,0x8BC1,0x8A81,0x4A40,
  0x4E00,0x8EC1,0x8F81,0x4F40,0x8D01,0x4DC0,0x4C80,0x8C41,
  0x4400,0x84C1,0x8581,0x4540,0x8701,0x47C0,0x4680,0x8641,
  0x8201,0x42C0,0x4380,0x8341,0x4100,0x81C1,0x8081,0x4040]

/-- sit.c `sit_crc_update`: byte-at-a-time table-driven update. -/
def sit_crc_update (crc : Nat) (buf : List Nat) : Nat :=
  buf.foldl (fun c b => sit_crc_table.getD ((c ^^^ b) &&& 0xFF) 0 ^^^ (c >>> 8)) crc

/-- sit.c `sit_crc`: complete CRC-16 over a buffer, initial value 0. -/
def sit_crc (buf : List Nat) : Nat :=
  sit_crc_update 0 buf

-- ===========================================================================
-- StuffIt entry records and fork decompression — sit.c
-- ===========================================================================

/-- sit.c `sit_fork_info_t`: per-fork metadata unpacked from an entry
header.  The C `data` pointer into the archive is modelled by the pointed-to
packed bytes themselves. -/
structure SitForkInfo where
  raw_len : Nat
  packed_len : Nat
  crc : Nat
  method : Nat
  data : List Nat
  deriving Repr, DecidableEq

/-- The zero `sit_fork_info_t` of a `memset` entry. -/
def zeroFork : SitForkInfo :=
  { raw_len := 0, packed_len := 0, crc := 0, method := 0, data := [] }

/-- sit.c `sit_entry_t`: a parsed file entry (full path, metadata, forks). -/
structure SitEntry where
  name : List Nat
  mac_type : Nat
  mac_creator : Nat
  finder_flags : Nat
  data_fork : SitForkInfo
  rsrc_fork : SitForkInfo
  has_rsrc : Bool
  deriving Repr, DecidableEq

/-- The type of the method 13 / method 15 decompressors `peel_sit13` and
`peel_sit15` (defined in sit13.c / sit15.c and forward-declared in sit.c):
compressed bytes, compressed length, uncompressed length to an owned
buffer or an error. -/
def SitMethodFn : Type := List Nat → Nat → Nat → Except String (List Nat)

/-- sit.c `decompress_fork`: dispatch on the method ID, decompress, and
check the fork CRC (skipped for method 15, which checks integrity
internally).  `s13` and `s15` are the sit13.c / sit15.c entry points, passed
as parameters mirroring the forward declarations in sit.c; the concrete
archives examined in this development never dispatch to methods 13 or 15. -/
def decompress_fork (s13 s15 : SitMethodFn) (fi : SitForkInfo) : Except String (List Nat) :=
  let src := fi.data.take fi.packed_len
  if fi.method = 13 then do
    let result ← s13 src fi.packed_len fi.raw_len
    if sit_crc result ≠ fi.crc then Except.error "SIT: fork CRC mismatch"
    else Except.ok result
  else if fi.method = 15 then
    s15 src fi.packed_len fi.raw_len
  else do
    let produced ←
      if fi.method = 0 then
        -- Method 0: raw copy
        if fi.packed_len < fi.raw_len then Except.error "SIT: method 0 packed smaller than raw"
        else Except.ok (src.take fi.raw_len)
      else if fi.method = 1 then
        -- Method 1: RLE90
        Except.ok (sit_rle90 fi.raw_len src)
      else if fi.method = 2 then
        -- Method 2: LZW
        let z := lzw_create src
        Except.ok (lzw_decode z fi.raw_len (lzw_fuel z fi.raw_len)).1
      else
        Except.error "SIT: unsupported compression method"
    if sit_crc produced ≠ fi.crc then Except.error "SIT: fork CRC mismatch"
    else Except.ok produced

-- ===========================================================================
-- Classic StuffIt parsing — sit.c (`find_classic_magic`, `parse_classic`)
-- ===========================================================================

/-- Byte list of an ASCII string literal. -/
def ascii (s : String) : List Nat :=
  s.toList.map Char.toNat

/-- sit.c `classic_sigs`: the 9 recognized classic signatures. -/
def classic_sigs : List (List Nat) :=
  [ascii "SIT!", ascii "ST46", ascii "ST50", ascii "ST60", ascii "ST65",
   ascii "STin", ascii "STi2", ascii "STi3", ascii "STi4"]

/-- sit.c `find_classic_magic`: scan for any classic signature with `rLau`
at its offset + 10; earliest match wins; `none` models the C result `-1`. -/
def find_classic_magic (src : List Nat) : Option Nat :=
  if src.length < 22 then none
  else
    (List.range (src.length - 14 + 1)).find? fun off =>
      slice src (off + 10) 4 = ascii "rLau" ∧
      classic_sigs.any fun s => slice src off 4 = s

/-- The folder-path prefix built from the classic folder stack in
`parse_classic` (the `for (d = 0; d < depth; d++)` loop): append each
directory name plus a `/`, stopping when the 512-byte path buffer would
overflow. -/
def classic_path_dirs : List (List Nat) → List Nat → List Nat
  | [], p => p
  | d :: ds, p =>
    if 512 ≤ p.length + d.length + 1 then p
    else classic_path_dirs ds (p ++ d ++ [47])

/-- sit.c `parse_classic`, main `while (done < file_count)` loop.  The loop
counter pair `(file_count, done)` is carried as `remaining = file_count -
done`; `dirs` is the folder stack (names already cut at their first NUL, as
the later `strlen` does); `acc` the entry list built so far.  `cursor` is
relative to `base = blob + archive_off` and wraps as the C `uint32_t`. -/
def parse_classic_loop (blob : List Nat) (archive_off : Nat) :
    Nat → Nat → List (List Nat) → List SitEntry → Except String (List SitEntry)
  | 0, _, _, acc => Except.ok acc
  | remaining + 1, cursor, dirs, acc =>
    let avail := blob.length - archive_off
    if avail < cursor + 112 then Except.ok acc
    else
      let hdr := (blob.drop archive_off).drop cursor
      let rm := hdr.getD 0 0
      let dm := hdr.getD 1 0
      if rm = 0x20 ∨ dm = 0x20 then
        -- Folder start marker
        let nlen := hdr.getD 2 0
        let dirs' :=
          if dirs.length < 10 ∧ nlen < 64
          then dirs ++ [(slice hdr 3 nlen).takeWhile (· ≠ 0)] else dirs
        parse_classic_loop blob archive_off remaining ((cursor + 112) % 4294967296) dirs' acc
      else if rm = 0x21 ∨ dm = 0x21 then
        -- Folder end marker
        parse_classic_loop blob archive_off remaining ((cursor + 112) % 4294967296) dirs.dropLast acc
      else if rm &&& 0xE0 ≠ 0 ∨ dm &&& 0xE0 ≠ 0 then
        -- Skip entries with unknown high bits
        parse_classic_loop blob archive_off remaining ((cursor + 112) % 4294967296) dirs acc
      else
        -- Regular file entry
        let nlen0 := hdr.getD 2 0
        let nlen := if 64 ≤ nlen0 then 63 else nlen0
        let fname := (slice hdr 3 nlen).takeWhile (· ≠ 0)
        let pfx := classic_path_dirs dirs []
        let path := pfx ++ fname.take (511 - pfx.length)
        let rulen := rd32be (hdr.drop 84)
        let dulen := rd32be (hdr.drop 88)
        let rclen := rd32be (hdr.drop 92)
        let dclen := rd32be (hdr.drop 96)
        let rcrc := rd16be (hdr.drop 100)
        let dcrc := rd16be (hdr.drop 102)
        let rsrc_off := archive_off + cursor + 112
        let data_off := rsrc_off + rclen
        if blob.length < data_off + dclen then
          Except.error "SIT classic: fork data extends past archive end"
        else if 65536 ≤ acc.length then
          Except.error "SIT: too many files in archive"
        else
          let ent : SitEntry :=
            { name := path.take 511
              mac_type := rd32be (hdr.drop 66)
              mac_creator := rd32be (hdr.drop 70)
              finder_flags := rd16be (hdr.drop 74)
              data_fork :=
                { raw_len := dulen, packed_len := dclen, crc := dcrc,
                  method := dm &&& 0x0F, data := slice blob data_off dclen }
              rsrc_fork :=
                { raw_len := rulen, packed_len := rclen, crc := rcrc,
                  method := rm &&& 0x0F, data := slice blob rsrc_off rclen }
              has_rsrc := 0 < rulen }
          parse_classic_loop blob archive_off remaining
            ((cursor + 112 + rclen + dclen) % 4294967296) dirs (acc ++ [ent])

/-- sit.c `parse_classic`: classic StuffIt archive parsing from
`archive_off`: check the 22-byte top header fits, read `file_count` at
offset 4, and run the entry loop from cursor 22 with an empty folder stack. -/
def parse_classic (blob : List Nat) (archive_off : Nat) : Except String (List SitEntry) :=
  if blob.length - archive_off < 22 then Except.error "SIT classic: archive too small"
  else
    let file_count := rd16be ((blob.drop archive_off).drop 4)
    parse_classic_loop blob archive_off file_count 22 [] []

-- ===========================================================================
-- SIT5 parsing — sit.c (`find_sit5_magic`, `build_path`, `parse_sit5`)
-- ===========================================================================

/-- sit.c `find_sit5_magic`: scan for the 80-byte SIT5 banner (bytes 0–15
and 20–77 validated, the year and trailing CR LF not); earliest match. -/
def find_sit5_magic (src : List Nat) : Option Nat :=
  if src.length < 80 then none
  else
    (List.range (src.length - 80 + 1)).find? fun off =>
      slice src off 16 = ascii "StuffIt (c)1997-" ∧
      slice src (off + 20) 58 =
        ascii " Aladdin Systems, Inc., http://www.aladdinsys.com/StuffIt/"

/-- sit.c `build_path`: build `dir/name` into a 512-byte buffer, with the
C-string truncation semantics (`strnlen` caps; the separator is only added
while it fits).  `dir` and `name` are NUL-free byte lists. -/
def sit5_build_path (dir name : List Nat) : List Nat :=
  if dir ≠ [] then
    let d := dir.take 511
    let d2 := if d.length < 511 then d ++ [47] else d
    d2 ++ name.take (511 - d2.length)
  else
    name.take 511

/-- sit.c `parse_sit5`, main traversal loop.  `remaining` is the declared
entry count (folders add their child count), `cursor` the base-relative
offset of the next entry header, `dmap` the bounded directory map (offset,
path), `acc` the parsed entries.  The C loop advances `cursor` through the
linked entries; since a malformed archive can make the C cursor stand still
(a zero `header_size` on a skip-marker entry), the recursion is driven by a
fuel parameter; `sit5_fuel` below dominates every terminating C execution,
and the fuel-exhausted result mirrors the loop exit (entries so far, no
error). -/
def parse_sit5_loop (blob : List Nat) (archive_off : Nat) :
    Nat → Nat → Nat → List (Nat × List Nat) → List SitEntry → Except String (List SitEntry)
  | 0, _, _, _, acc => Except.ok acc
  | _ + 1, 0, _, _, acc => Except.ok acc
  | fuel + 1, remaining + 1, cursor, dmap, acc =>
    let avail := blob.length - archive_off
    if cursor = 0 ∨ avail < cursor + 48 then Except.ok acc
    else
      let h1 := (blob.drop archive_off).drop cursor
      if rd32be h1 ≠ 0xA5A5A5A5 then Except.error "SIT5: invalid entry magic"
      else if h1.getD 4 0 ≠ 1 then Except.error "SIT5: unsupported entry version"
      else
        let h1_len := rd16be (h1.drop 6)
        if avail < cursor + h1_len then Except.error "SIT5: header1 extends past archive end"
        else
          -- Header 1 CRC, computed with bytes 32-33 zeroed
          let tmp := ((h1.take h1_len).set 32 0).set 33 0
          if sit_crc tmp ≠ rd16be (h1.drop 32) then Except.error "SIT5: header CRC mismatch"
          else
            let h2_off := cursor + h1_len
            let flags := h1.getD 9 0
            let parent_off := rd32be (h1.drop 26)
            let namelen := rd16be (h1.drop 30)
            let d_raw_len := rd32be (h1.drop 34)
            let d_packed_len := rd32be (h1.drop 38)
            let d_crc := rd16be (h1.drop 42)
            -- Entry name (starts at byte 48 of header 1), clamped to the
            -- 255-byte buffer and to the archive end, cut at the first NUL
            let cl0 := min namelen 255
            let cl := if avail < cursor + 48 + cl0 then avail - cursor - 48 else cl0
            let namebuf := (slice h1 48 cl).takeWhile (· ≠ 0)
            if avail < h2_off + 32 then Except.error "SIT5: header2 extends past archive end"
            else
              let h2 := (blob.drop archive_off).drop h2_off
              let flags2 := rd16be h2
              let skip_extra := if h1.getD 4 0 = 1 then 22 else 18
              let rsrc_present := flags2 &&& 0x01 ≠ 0
              let after_prefix := h2_off + 14 + skip_extra
              if rsrc_present ∧ blob.length < archive_off + after_prefix + 14 then
                Except.error "SIT5: resource info past archive end"
              else
                let ap := (blob.drop archive_off).drop after_prefix
                let r_raw_len := if rsrc_present then rd32be ap else 0
                let r_packed_len := if rsrc_present then rd32be (ap.drop 4) else 0
                let r_crc := if rsrc_present then rd16be (ap.drop 8) else 0
                let r_algo := if rsrc_present then ap.getD 12 0 else 0
                let payload_off :=
                  if rsrc_present then after_prefix + 14 + ap.getD 13 0 else after_prefix
                let ppath :=
                  if parent_off ≠ 0 then
                    ((dmap.find? fun de => de.1 = parent_off).map Prod.snd).getD []
                  else []
                if flags &&& 0x40 ≠ 0 then
                  -- Folder entry (flags bit 6)
                  let child_count := rd16be (h1.drop 46)
                  if d_raw_len = 0xFFFFFFFF then
                    -- Skip-marker folder: net effect is cursor := h2_off
                    parse_sit5_loop blob archive_off fuel (remaining + 1)
                      (h2_off % 4294967296) dmap acc
                  else
                    let folder_full := sit5_build_path ppath namebuf
                    let dmap' :=
                      if dmap.length < 32 then dmap ++ [(cursor, folder_full.take 511)] else dmap
                    parse_sit5_loop blob archive_off fuel (remaining + 1 + child_count)
                      (payload_off % 4294967296) dmap' acc
                else if d_raw_len = 0xFFFFFFFF then
                  -- Skip-marker file entry
                  parse_sit5_loop blob archive_off fuel (remaining + 1)
                    (h2_off % 4294967296) dmap acc
                else
                  -- Regular file entry
                  let d_algo := h1.getD 46 0
                  let d_passlen := h1.getD 47 0
                  if flags &&& 0x20 ≠ 0 ∧ d_raw_len ≠ 0 ∧ d_passlen ≠ 0 then
                    Except.error "SIT5: encrypted entries are not supported"
                  else
                    let full_name := sit5_build_path ppath namebuf
                    let d_base := payload_off + (if rsrc_present then r_packed_len else 0)
                    if blob.length < archive_off + d_base + d_packed_len then
                      Except.error "SIT5: data fork extends past archive end"
                    else if 65536 ≤ acc.length then
                      Except.error "SIT: too many files in archive"
                    else
                      let ent : SitEntry :=
                        { name := full_name.take 511
                          mac_type := rd32be (h2.drop 4)
                          mac_creator := rd32be (h2.drop 8)
                          finder_flags := rd16be (h2.drop 12)
                          data_fork :=
                            { raw_len := d_raw_len, packed_len := d_packed_len, crc := d_crc,
                              method := d_algo &&& 0x0F,
                              data := slice blob (archive_off + d_base) d_packed_len }
                          rsrc_fork :=
                            if rsrc_present ∧ 0 < r_raw_len then
                              { raw_len := r_raw_len, packed_len := r_packed_len, crc := r_crc,
                                method := r_algo &&& 0x0F,
                                data := slice blob (archive_off + payload_off) r_packed_len }
                            else zeroFork
                          has_rsrc := rsrc_present ∧ 0 < r_raw_len }
                      parse_sit5_loop blob archive_off fuel remaining
                        ((d_base + d_packed_len) % 4294967296) dmap (acc ++ [ent])

/-- Fuel that dominates every terminating execution of the C `parse_sit5`
loop: every iteration of a run that returns either consumes one of the (at
most `65536 * (blob.length + 2)`) expected entries or advances the cursor. -/
def sit5_fuel (blob : List Nat) : Nat :=
  65536 * (blob.length + 2) + blob.length + 65536

/-- sit.c `parse_sit5`: check the 100-byte minimum, read the declared entry
count (offset 92) and initial cursor (offset 94), and run the traversal. -/
def parse_sit5 (blob : List Nat) (archive_off : Nat) : Except String (List SitEntry) :=
  if blob.length - archive_off < 100 then Except.error "SIT5: archive too small"
  else
    let base := blob.drop archive_off
    let entry_count := rd16be (base.drop 92)
    let cursor := rd32be (base.drop 94)
    parse_sit5_loop blob archive_off (sit5_fuel blob) entry_count cursor [] []

-- ===========================================================================
-- StuffIt file-list construction and entry points — sit.c
-- (`build_file_list`, `sit_detect`, `peel_sit`)
-- ===========================================================================

/-- sit.c `build_file_list`: decompress all forks of the entries that have
at least one fork of nonzero declared length; any decompression error
aborts the whole build.  The metadata name is clamped to the 255-byte
`peel_meta_t` buffer. -/
def build_file_list (s13 s15 : SitMethodFn) : List SitEntry → Except String (List PeelFile)
  | [] => Except.ok []
  | e :: rest =>
    if e.data_fork.raw_len = 0 ∧ ¬(e.has_rsrc ∧ 0 < e.rsrc_fork.raw_len) then
      build_file_list s13 s15 rest
    else do
      let dataf ←
        if 0 < e.data_fork.raw_len then decompress_fork s13 s15 e.data_fork
        else Except.ok []
      let rsrcf ←
        if e.has_rsrc ∧ 0 < e.rsrc_fork.raw_len then decompress_fork s13 s15 e.rsrc_fork
        else Except.ok []
      let restf ← build_file_list s13 s15 rest
      Except.ok
        ({ meta := { name := e.name.take 255, mac_type := e.mac_type,
                     mac_creator := e.mac_creator, finder_flags := e.finder_flags },
           data_fork := dataf, resource_fork := rsrcf } :: restf)

/-- sit.c `sit_detect`: classic or SIT5 magic anywhere in the buffer. -/
def sit_detect (src : List Nat) : Bool :=
  (find_classic_magic src).isSome ∨ (find_sit5_magic src).isSome

/-- sit.c `peel_sit`: find both magics, parse whichever occurs earliest
(classic wins ties), then build the file list. -/
def peel_sit (s13 s15 : SitMethodFn) (src : List Nat) : Except String (List PeelFile) := do
  let entries ←
    match find_classic_magic src, find_sit5_magic src with
    | some c, some s =>
      if c ≤ s then parse_classic src c else parse_sit5 src s
    | some c, none => parse_classic src c
    | none, some s => parse_sit5 src s
    | none, none => Except.error "SIT: no valid StuffIt signature found"
  build_file_list s13 s15 entries

/-- The methods 13 and 15 decompressors live in sit13.c and sit15.c, which
no concrete input of this development ever dispatches to; the closed
theorems below instantiate the corresponding parameters with this function. -/
def sit_method_unavailable : SitMethodFn :=
  fun _ _ _ => Except.error "method 13/15 decoder not modelled"

-- ===========================================================================
-- BinHex decoder — hqx.c
-- ===========================================================================

/-- hqx.c `hqx_alphabet`: the 64-character BinHex alphabet, given here by
character codes (the C literal contains quote characters). -/
def hqx_alphabet : List Nat :=
  [33, 34, 35, 36, 37, 38, 39, 40, 41, 42, 43, 44, 45,
   48, 49, 50, 51, 52, 53, 54, 56, 57, 64,
   65, 66, 67, 68, 69, 70, 71, 72, 73, 74, 75, 76, 77, 78,
   80, 81, 82, 83, 84, 85, 86, 88, 89, 90, 91, 96,
   97, 98, 99, 100, 101, 102, 104, 105, 106, 107, 108, 109, 112, 113, 114]

/-- hqx.c reverse alphabet lookup (`dec->rev`, filled with 0xFF then the
alphabet indices): index of `c` in the alphabet, 0xFF when absent. -/
def hqx_rev (c : Nat) : Nat :=
  (hqx_alphabet.findIdx? (· = c)).getD 0xFF

/-- hqx.c `hqx_decoder_t`: the three-layer pull pipeline state (source
cursor, six-to-eight accumulator, RLE90 expander state). -/
structure HqxDec where
  src : List Nat
  src_pos : Nat
  accum : Nat
  accum_bits : Nat
  rle_marker_seen : Bool
  rle_prev : Nat
  rle_pending : Nat
  deriving Repr, DecidableEq

/-- hqx.c `hqx_decoder_init` positioned just past the opening colon. -/
def hqx_decoder_init (src : List Nat) (payload_start : Nat) : HqxDec :=
  { src := src, src_pos := payload_start, accum := 0, accum_bits := 0,
    rle_marker_seen := false, rle_prev := 0, rle_pending := 0 }

/-- The whitespace-skipping loop of hqx.c `hqx_next_char`, recursing on the
number of source characters left (the loop advances the cursor each step). -/
def hqx_next_char_go (src : List Nat) (pos : Nat) : Nat → Option Nat × Nat
  | 0 => (none, pos)
  | left + 1 =>
    let ch := src.getD pos 0
    if ch = 58 then (none, pos + 1)
    else if ch = 13 ∨ ch = 10 ∨ ch = 9 ∨ ch = 32 then hqx_next_char_go src (pos + 1) left
    else (some ch, pos + 1)

/-- hqx.c `hqx_next_char`: fetch the next encoded character, skipping CR,
LF, TAB and SP; `none` at the terminating colon or at end of input.  Only
the source cursor changes, so it is passed and returned directly. -/
def hqx_next_char (src : List Nat) (pos : Nat) : Option Nat × Nat :=
  hqx_next_char_go src pos (src.length - pos)

/-- The accumulator-filling loop of hqx.c `hqx_raw_byte`, recursing on the
bits still needed (each step adds 6 bits, so two steps always suffice). -/
def hqx_raw_byte_go (d : HqxDec) : Nat → Except String (Option Nat × HqxDec)
  | 0 => Except.ok (some ((d.accum >>> (d.accum_bits - 8)) &&& 0xFF),
                    { d with accum_bits := d.accum_bits - 8 })
  | left + 1 =>
    if d.accum_bits < 8 then
      match hqx_next_char d.src d.src_pos with
      | (none, pos') => Except.ok (none, { d with src_pos := pos' })
      | (some ch, pos') =>
        let val := hqx_rev ch
        if 63 < val then Except.error "BinHex: invalid character"
        else hqx_raw_byte_go { d with src_pos := pos',
                                      accum := (d.accum <<< 6) ||| val,
                                      accum_bits := d.accum_bits + 6 } left
    else
      Except.ok (some ((d.accum >>> (d.accum_bits - 8)) &&& 0xFF),
                 { d with accum_bits := d.accum_bits - 8 })

/-- hqx.c `hqx_raw_byte`: feed 6-bit symbols into the accumulator until at
least 8 bits are buffered, then extract one byte.  An unknown non-whitespace
character is the fatal error of the C `decode_abort`. -/
def hqx_raw_byte (d : HqxDec) : Except String (Option Nat × HqxDec) :=
  hqx_raw_byte_go d 2

/-- The `for (;;)` loop of hqx.c `hqx_decoded_byte`.  The loop repeats only
when a raw `0x90` enters the marker-pending state, and every `hqx_raw_byte`
call inside it consumes at least one source character, so fuel of
`src.length + 1` reproduces the loop; the fuel-exhausted value mirrors end
of input. -/
def hqx_decoded_byte_go (d : HqxDec) : Nat → Except String (Option Nat × HqxDec)
  | 0 => Except.ok (none, d)
  | fuel + 1 =>
    match hqx_raw_byte d with
    | Except.error e => Except.error e
    | Except.ok (none, d') => Except.ok (none, d')
    | Except.ok (some raw, d') =>
      if d'.rle_marker_seen then
        let d2 := { d' with rle_marker_seen := false }
        if raw = 0 then
          -- Literal 0x90 escape: emit 0x90 and set prev
          Except.ok (some 0x90, { d2 with rle_prev := 0x90 })
        else if raw = 1 then Except.error "BinHex: illegal RLE count of 1"
        else
          -- Repeat prev byte `raw` times total: one now, queue the rest
          Except.ok (some d2.rle_prev, { d2 with rle_pending := raw - 2 })
      else if raw = 0x90 then
        hqx_decoded_byte_go { d' with rle_marker_seen := true } fuel
      else
        Except.ok (some raw, { d' with rle_prev := raw })

/-- hqx.c `hqx_decoded_byte`: drain pending RLE copies, else run the
marker/literal loop. -/
def hqx_decoded_byte (d : HqxDec) : Except String (Option Nat × HqxDec) :=
  if 0 < d.rle_pending then
    Except.ok (some d.rle_prev, { d with rle_pending := d.rle_pending - 1 })
  else
    hqx_decoded_byte_go d (d.src.length + 1)

/-- hqx.c `hqx_read_bytes`: read exactly `n` decoded bytes; premature end of
stream is fatal. -/
def hqx_read_bytes (d : HqxDec) : Nat → Except String (List Nat × HqxDec)
  | 0 => Except.ok ([], d)
  | n + 1 =>
    match hqx_decoded_byte d with
    | Except.error e => Except.error e
    | Except.ok (none, _) => Except.error "BinHex: premature end of stream"
    | Except.ok (some b, d') =>
      match hqx_read_bytes d' n with
      | Except.error e => Except.error e
      | Except.ok (bs, df) => Except.ok (b :: bs, df)

/-- hqx.c `hqx_read_fork`: read a fork of `fork_len` bytes and verify the
trailing two-byte CRC by the self-checking property; a zero-length fork
still carries a CRC field that must be `0x0000`. -/
def hqx_read_fork (d : HqxDec) (fork_len : Nat) (fork_name : String) :
    Except String (List Nat × HqxDec) :=
  if fork_len = 0 then
    match hqx_read_bytes d 2 with
    | Except.error e => Except.error e
    | Except.ok (crc_bytes, d') =>
      if rd16be crc_bytes ≠ 0x0000 then
        Except.error ("BinHex: " ++ fork_name ++ " fork CRC mismatch (empty fork, expected 0x0000)")
      else Except.ok ([], d')
  else
    match hqx_read_bytes d fork_len with
    | Except.error e => Except.error e
    | Except.ok (content, d1) =>
      match hqx_read_bytes d1 2 with
      | Except.error e => Except.error e
      | Except.ok (crc_bytes, d2) =>
        if crc16_ccitt_update (crc16_ccitt content) crc_bytes ≠ 0 then
          Except.error ("BinHex: " ++ fork_name ++ " fork CRC mismatch")
        else Except.ok (content, d2)

/-- Parsed fields of a BinHex header (hqx.c `hqx_header_t`). -/
structure HqxHeader where
  name : List Nat
  name_len : Nat
  mac_type : Nat
  mac_creator : Nat
  finder_flags : Nat
  data_len : Nat
  rsrc_len : Nat
  deriving Repr, DecidableEq

/-- hqx.c `hqx_parse_header`: read the variable-length header (1 length
byte, name, NUL, type, creator, flags, two fork lengths, 2 CRC bytes) and
verify the header CRC. -/
def hqx_parse_header (d : HqxDec) : Except String (HqxHeader × HqxDec) :=
  match hqx_read_bytes d 1 with
  | Except.error e => Except.error e
  | Except.ok (first, d1) =>
    let name_len := first.getD 0 0
    if name_len = 0 ∨ 63 < name_len then Except.error "BinHex: invalid filename length"
    else
      let payload_len := name_len + 19
      match hqx_read_bytes d1 (payload_len + 2) with
      | Except.error e => Except.error e
      | Except.ok (rest, d2) =>
        let buf := name_len :: rest
        if crc16_ccitt buf ≠ 0 then Except.error "BinHex: header CRC mismatch"
        else
          Except.ok
            ({ name := slice buf 1 name_len
               name_len := name_len
               mac_type := rd32be (buf.drop (2 + name_len))
               mac_creator := rd32be (buf.drop (6 + name_len))
               finder_flags := rd16be (buf.drop (10 + name_len))
               data_len := rd32be (buf.drop (12 + name_len))
               rsrc_len := rd32be (buf.drop (16 + name_len)) }, d2)

/-- hqx.c `HQX_PREAMBLE`. -/
def hqx_preamble : List Nat :=
  ascii "(This file must be converted with BinHex"

/-- The two line-skipping loops after the preamble in `hqx_find_preamble`:
skip to the next CR/LF, then past the run of CR/LF characters. -/
def hqx_skip_line_go (src : List Nat) (j : Nat) : Nat → Nat
  | 0 => j
  | left + 1 =>
    if src.getD j 0 ≠ 10 ∧ src.getD j 0 ≠ 13 then hqx_skip_line_go src (j + 1) left else j

/-- First loop of `hqx_find_preamble`: advance to the next CR/LF. -/
def hqx_skip_line (src : List Nat) (j : Nat) : Nat :=
  hqx_skip_line_go src j (src.length - j)

def hqx_skip_eol_go (src : List Nat) (j : Nat) : Nat → Nat
  | 0 => j
  | left + 1 =>
    if src.getD j 0 = 10 ∨ src.getD j 0 = 13 then hqx_skip_eol_go src (j + 1) left else j

/-- Second loop of `hqx_find_preamble`: skip the line-ending characters. -/
def hqx_skip_eol (src : List Nat) (j : Nat) : Nat :=
  hqx_skip_eol_go src j (src.length - j)

/-- hqx.c `hqx_find_preamble`: locate the identification string and return
the offset just past its line; `none` models the C `(size_t)-1`. -/
def hqx_find_preamble (src : List Nat) : Option Nat :=
  if src.length < hqx_preamble.length then none
  else
    ((List.range (src.length - hqx_preamble.length + 1)).find? fun i =>
        slice src i hqx_preamble.length = hqx_preamble).map fun i =>
      hqx_skip_eol src (hqx_skip_line src (i + hqx_preamble.length))

/-- hqx.c `hqx_find_start_colon`: offset just past the first colon at or
after `from`. -/
def hqx_find_start_colon (src : List Nat) (start : Nat) : Option Nat :=
  ((List.range src.length).find? fun i => start ≤ i ∧ src.getD i 0 = 58).map (· + 1)

/-- hqx.c `FINDER_CLEAR_MASK` (bits 14, 7, 2). -/
def hqx_finder_clear_mask : Nat := 0x4084

/-- hqx.c `hqx_decode`: full BinHex decode to a file with both forks. -/
def hqx_decode (src : List Nat) : Except String PeelFile :=
  match hqx_find_preamble src with
  | none => Except.error "BinHex: preamble not found"
  | some after_preamble =>
    match hqx_find_start_colon src after_preamble with
    | none => Except.error "BinHex: no starting colon found"
    | some payload_start =>
      match hqx_parse_header (hqx_decoder_init src payload_start) with
      | Except.error e => Except.error e
      | Except.ok (hdr, d1) =>
        match hqx_read_fork d1 hdr.data_len "data" with
        | Except.error e => Except.error e
        | Except.ok (data_fork, d2) =>
          match hqx_read_fork d2 hdr.rsrc_len "resource" with
          | Except.error e => Except.error e
          | Except.ok (rsrc_fork, _) =>
            Except.ok
              { meta := { name := hdr.name.take 255
                          mac_type := hdr.mac_type
                          mac_creator := hdr.mac_creator
                          finder_flags := hdr.finder_flags &&& (0xFFFF ^^^ hqx_finder_clear_mask) }
                data_fork := data_fork
                resource_fork := rsrc_fork }

/-- hqx.c `hqx_detect`: the preamble substring occurs in the input. -/
def hqx_detect (src : List Nat) : Bool :=
  (hqx_find_preamble src).isSome

/-- hqx.c `peel_hqx`: decode and return the data fork only. -/
def peel_hqx (src : List Nat) : Except String (List Nat) :=
  (hqx_decode src).map (·.data_fork)

-- ===========================================================================
-- MacBinary decoder — bin.c
-- ===========================================================================

/-- bin.c `pad128`: padding to the next 128-byte boundary. -/
def pad128 (n : Nat) : Nat :=
  (128 - n % 128) % 128

/-- bin.c `looks_like_sit`: does a buffer begin with a StuffIt signature
(SIT5 banner at offset 0, or one of the nine classic signatures — the same
list as sit.c `classic_sigs` — plus `rLau` at offset 10)? -/
def looks_like_sit (buf : List Nat) : Bool :=
  (80 ≤ buf.length ∧
     slice buf 0 16 = ascii "StuffIt (c)1997-" ∧
     slice buf 20 58 = ascii " Aladdin Systems, Inc., http://www.aladdinsys.com/StuffIt/") ∨
  (14 ≤ buf.length ∧
     classic_sigs.any fun s => slice buf 0 4 = s ∧ slice buf 10 4 = ascii "rLau")

/-- bin.c `bin_validate`: MacBinary II header validation — byte 0 and 74
zero, name length 1..63, CRC-16/XMODEM over bytes 0–123 matching bytes
124–125, with the MacBinary I fallback (accept a CRC mismatch when byte 82
is zero). -/
def bin_validate (hdr : List Nat) : Bool :=
  if hdr.getD 0 0 ≠ 0 then false
  else if hdr.getD 74 0 ≠ 0 then false
  else
    let name_len := hdr.getD 1 0
    if name_len = 0 ∨ 63 < name_len then false
    else if crc16_ccitt (hdr.take 124) ≠ rd16be (hdr.drop 124) then
      decide (hdr.getD 82 0 = 0)
    else true

/-- Parsed fields from the MacBinary header (bin.c `bin_header_t`). -/
structure BinHeader where
  name : List Nat
  name_len : Nat
  mac_type : Nat
  mac_creator : Nat
  finder_flags : Nat
  data_len : Nat
  rsrc_len : Nat
  sec_hdr_len : Nat
  deriving Repr, DecidableEq

/-- bin.c `bin_parse_header`: extract the metadata fields from a validated
128-byte header. -/
def bin_parse_header (hdr : List Nat) : BinHeader :=
  let name_len := hdr.getD 1 0
  { name := slice hdr 2 (min name_len 63)
    name_len := name_len
    mac_type := rd32be (hdr.drop 65)
    mac_creator := rd32be (hdr.drop 69)
    finder_flags := (hdr.getD 73 0) <<< 8 ||| hdr.getD 101 0
    data_len := rd32be (hdr.drop 83)
    rsrc_len := rd32be (hdr.drop 87)
    sec_hdr_len := rd16be (hdr.drop 120) }

/-- bin.c `FINDER_CLEAR_MASK` (bits 0, 1, 8, 9, 10). -/
def bin_finder_clear_mask : Nat := 0x0703

/-- bin.c `bin_decode`: validate the 128-byte header, skip the optional
secondary header, read both padded forks, and assemble the file. -/
def bin_decode (src : List Nat) : Except String PeelFile :=
  if src.length < 128 then Except.error "MacBinary: input too short"
  else if ¬ bin_validate src then Except.error "MacBinary: invalid header"
  else
    let hdr := bin_parse_header src
    if 0x7FFFFFFF < hdr.data_len ∨ 0x7FFFFFFF < hdr.rsrc_len then
      Except.error "MacBinary: fork length exceeds maximum"
    else
      let pos := 128 + (if 0 < hdr.sec_hdr_len then hdr.sec_hdr_len + pad128 hdr.sec_hdr_len else 0)
      if src.length < pos + hdr.data_len then Except.error "MacBinary: data fork truncated"
      else
        let data_fork := if 0 < hdr.data_len then slice src pos hdr.data_len else []
        let pos2 := pos + hdr.data_len + pad128 hdr.data_len
        if src.length < pos2 + hdr.rsrc_len then Except.error "MacBinary: resource fork truncated"
        else
          let rsrc_fork := if 0 < hdr.rsrc_len then slice src pos2 hdr.rsrc_len else []
          Except.ok
            { meta := { name := hdr.name.take 255
                        mac_type := hdr.mac_type
                        mac_creator := hdr.mac_creator
                        finder_flags := hdr.finder_flags &&& (0xFFFF ^^^ bin_finder_clear_mask) }
              data_fork := data_fork
              resource_fork := rsrc_fork }

/-- bin.c `bin_detect`: length at least 128 and header validation passes. -/
def bin_detect (src : List Nat) : Bool :=
  128 ≤ src.length ∧ bin_validate src

/-- bin.c `peel_bin`: decode, then apply the fork-selection heuristic — if
the data fork is a StuffIt archive or there is no resource fork, return the
data fork, otherwise return the resource fork. -/
def peel_bin (src : List Nat) : Except String (List Nat) :=
  match bin_decode src with
  | Except.error e => Except.error e
  | Except.ok file =>
    let data_is_sit := ¬ file.data_fork.isEmpty ∧ looks_like_sit file.data_fork
    if data_is_sit ∨ file.resource_fork.length = 0 then Except.ok file.data_fork
    else Except.ok file.resource_fork

/-- bin.c `peel_bin_file`: decode and return both forks plus metadata. -/
def peel_bin_file (src : List Nat) : Except String PeelFile :=
  bin_decode src

-- ===========================================================================
-- Compact Pro detection — cpt.c (`cpt_detect`)
-- ===========================================================================

/-- cpt.c `cpt_detect`: magic `0x01 0x01` and a directory offset between 8
and 256 MiB. -/
def cpt_detect (src : List Nat) : Bool :=
  if src.length < 8 then false
  else if src.getD 0 0 ≠ 0x01 ∨ src.getD 1 0 ≠ 0x01 then false
  else
    let dir_off := rd32be (src.drop 4)
    if dir_off < 8 ∨ 0x10000000 < dir_off then false else true

-- ===========================================================================
-- Peeling driver — peeler.c
-- ===========================================================================

/-- peeler.c `MAX_PEEL_DEPTH`. -/
abbrev MAX_PEEL_DEPTH : Nat := 32

/-- peeler.c `peel_format_kind_t`. -/
inductive FmtKind where
  | wrapper
  | archive
  deriving Repr, DecidableEq

/-- peeler.c `peel_format_t`: a handler-table entry.  The C struct carries
one of the two peel function pointers as `NULL`; here both fields are total
and the `kind` dispatch (as in the C driver) decides which one runs. -/
structure PeelFormat where
  name : String
  kind : FmtKind
  detect : List Nat → Bool
  peel_wrapper : List Nat → Except String (List Nat)
  peel_archive : List Nat → Except String (List PeelFile)

/-- Stand-in for a `NULL` `peel_wrapper` pointer in the handler table; the
driver dispatches on `kind` and never calls it. -/
def null_wrapper : List Nat → Except String (List Nat) :=
  fun _ => Except.error "NULL wrapper handler"

/-- Stand-in for a `NULL` `peel_archive` pointer in the handler table; the
driver dispatches on `kind` and never calls it. -/
def null_archive : List Nat → Except String (List PeelFile) :=
  fun _ => Except.error "NULL archive handler"

/-- peeler.c `detect_format`: first handler whose probe matches. -/
def detect_format (fmts : List PeelFormat) (src : List Nat) : Option PeelFormat :=
  fmts.find? fun f => f.detect src

/-- peeler.c `wrap_single_file`: a raw buffer as a single-file result with
no metadata (the out-of-memory failure path of the C is not modelled). -/
def wrap_single_file (src : List Nat) : List PeelFile :=
  [{ meta := zeroMeta, data_fork := src, resource_fork := [] }]

/-- peeler.c `recursive_peel_files`: for each extracted file whose data
fork detects as a wrapper format (only), peel that data fork at depth + 1 —
`subpeel` is that depth-incremented peel, `peel_depth(. , ., depth + 1)` in
the C; a failed sub-peel keeps the original file as-is; a successful one
splices the sub-results in its place.  The C function can fail only on
out-of-memory, which is not modelled, so the result is a plain list. -/
def recursive_peel_files (fmts : List PeelFormat)
    (subpeel : List Nat → Except String (List PeelFile)) :
    List PeelFile → List PeelFile
  | [] => []
  | f :: rest =>
    let fmt? : Option PeelFormat :=
      if ¬ f.data_fork.isEmpty then
        match detect_format fmts f.data_fork with
        | some fmt => if fmt.kind ≠ FmtKind.wrapper then none else some fmt
        | none => none
      else none
    match fmt? with
    | none => f :: recursive_peel_files fmts subpeel rest
    | some _ =>
      match subpeel f.data_fork with
      | Except.error _ => f :: recursive_peel_files fmts subpeel rest
      | Except.ok sub => sub ++ recursive_peel_files fmts subpeel rest

/-- The `for (wrap_depth = 0; wrap_depth < MAX_PEEL_DEPTH; ...)` loop of
peeler.c `peel_depth`: `n` is the number of loop iterations left and
`subpeel` the depth-incremented peel used for extracted files after an
archive is reached.  Falling out of the loop (no format detected, or the
32 iterations exhausted) wraps the current buffer as a single unnamed
file. -/
def peel_loop (fmts : List PeelFormat)
    (subpeel : List Nat → Except String (List PeelFile)) :
    Nat → List Nat → Except String (List PeelFile)
  | 0, cur => Except.ok (wrap_single_file cur)
  | n + 1, cur =>
    match detect_format fmts cur with
    | none => Except.ok (wrap_single_file cur)
    | some fmt =>
      match fmt.kind with
      | FmtKind.wrapper =>
        match fmt.peel_wrapper cur with
        | Except.error e => Except.error e
        | Except.ok decoded => peel_loop fmts subpeel n decoded
      | FmtKind.archive =>
        match fmt.peel_archive cur with
        | Except.error e => Except.error e
        | Except.ok files => Except.ok (recursive_peel_files fmts subpeel files)

/-- peeler.c `peel_depth`, with the depth argument replaced by the
remaining budget `gas = MAX_PEEL_DEPTH - depth`: at exhausted budget
(`depth >= MAX_PEEL_DEPTH`) the buffer is wrapped as a single unnamed
file; otherwise the wrapper-stripping loop runs, with this function at the
next smaller budget (depth + 1 in the C) as the sub-peel for extracted
files. -/
def peel_depth_aux (fmts : List PeelFormat) : Nat → List Nat → Except String (List PeelFile)
  | 0, src => Except.ok (wrap_single_file src)
  | gas + 1, src => peel_loop fmts (peel_depth_aux fmts gas) MAX_PEEL_DEPTH src

/-- peeler.c `peel_depth`: depth-indexed entry point. -/
def peel_depth (fmts : List PeelFormat) (src : List Nat) (depth : Nat) :
    Except String (List PeelFile) :=
  peel_depth_aux fmts (MAX_PEEL_DEPTH - depth) src

/-- peeler.c `peel`: full peel at depth 0. -/
def peel (fmts : List PeelFormat) (src : List Nat) : Except String (List PeelFile) :=
  peel_depth fmts src 0

/-- peeler.c `peel_detect`: name of the first matching handler. -/
def peel_detect (fmts : List PeelFormat) (src : List Nat) : Option String :=
  (detect_format fmts src).map (·.name)

/-- Compact Pro extraction (cpt.c `peel_cpt`) is not modelled in this
development; no input examined by any theorem below detects as `cpt`, so
the handler-table slot is filled with this function. -/
def peel_cpt_unavailable : List Nat → Except String (List PeelFile) :=
  fun _ => Except.error "Compact Pro extraction not modelled"

/-- peeler.c `g_formats`, instantiated with the embedded handlers: wrappers
first (`hqx`, `bin`), then the archives (`sit`, `cpt`). -/
def g_formats_inst : List PeelFormat :=
  [{ name := "hqx", kind := FmtKind.wrapper, detect := hqx_detect,
     peel_wrapper := peel_hqx, peel_archive := null_archive },
   { name := "bin", kind := FmtKind.wrapper, detect := bin_detect,
     peel_wrapper := peel_bin, peel_archive := null_archive },
   { name := "sit", kind := FmtKind.archive, detect := sit_detect,
     peel_wrapper := null_wrapper,
     peel_archive := peel_sit sit_method_unavailable sit_method_unavailable },
   { name := "cpt", kind := FmtKind.archive, detect := cpt_detect,
     peel_wrapper := null_wrapper, peel_archive := peel_cpt_unavailable }]

-- ===========================================================================
-- Concrete inputs used by the closed theorems and witnesses
-- ===========================================================================

/-- A classic StuffIt 112-byte entry header: resource method byte `0x00`,
data method byte `0x10` (encryption flag bit 4 set, method ID 0), name
`A`, zero-length resource fork, one-byte data fork (uncompressed and
compressed length 1), data-fork CRC `0x30C0` (the `sit_crc` of `[0x41]`). -/
def c1_entry : List Nat :=
  [0x00, 0x10, 1, 0x41] ++ List.replicate 84 0 ++
  [0, 0, 0, 1] ++ [0, 0, 0, 0] ++ [0, 0, 0, 1] ++ [0, 0] ++ [0x30, 0xC0] ++
  List.replicate 8 0

/-- A complete classic StuffIt archive: 22-byte top header (`SIT!`, file
count 1, `rLau`), the entry above, and its one data-fork byte `0x41`. -/
def c1_archive : List Nat :=
  ascii "SIT!" ++ [0, 1] ++ [0, 0, 0, 0] ++ ascii "rLau" ++ List.replicate 8 0 ++
  c1_entry ++ [0x41]

/-- The same archive with a declared file count of 2 but only one entry
present: the second 112-byte header would extend past the end of input. -/
def c10_archive : List Nat :=
  ascii "SIT!" ++ [0, 2] ++ [0, 0, 0, 0] ++ ascii "rLau" ++ List.replicate 8 0 ++
  c1_entry ++ [0x41]

/-- A 128-byte MacBinary header: byte 0 zero, name length 1, name `A`,
bytes 74 and 82 zero, resource fork length 1 (offset 87), everything else
zero.  The stored CRC (0) does not match, so validation accepts it through
the MacBinary I fallback. -/
def c7_header : List Nat :=
  [0, 1, 0x41] ++ List.replicate 84 0 ++ [0, 0, 0, 1] ++ List.replicate 37 0

/-- The MacBinary input: header, empty data fork, one resource-fork byte. -/
def c7_input : List Nat :=
  c7_header ++ [0x42]

/-- A BinHex decoder state over the three payload characters `!`, `!`, `%`
(six-bit values 0, 0, 4), which decode to the two bytes `0x00 0x01` — a
nonzero two-byte CRC field. -/
def c8_dec : HqxDec :=
  hqx_decoder_init [33, 33, 37] 0

/-- The decoder state after reading those two bytes. -/
def c8_dec_after : HqxDec :=
  { src := [33, 33, 37], src_pos := 3, accum := 4, accum_bits := 2,
    rle_marker_seen := false, rle_prev := 1, rle_pending := 0 }

/-- An LZW state whose dictionary is full (`tbl_next = LZW_TABLE_CAP`). -/
def c9_full_state : LzwState :=
  { lzw_create [] with tbl_next := LZW_TABLE_CAP, code_bits := 14 }

/-- A toy handler-table entry whose wrapper peel always fails: detects
everything, errors on peeling. -/
def failing_wrapper : PeelFormat :=
  { name := "w", kind := FmtKind.wrapper, detect := fun _ => true,
    peel_wrapper := fun _ => Except.error "wrapper peel failed",
    peel_archive := null_archive }

/-- A toy handler-table entry that always detects and peels by prepending a
zero byte — an input that detects as a wrapper indefinitely. -/
def endless_wrapper : PeelFormat :=
  { name := "w", kind := FmtKind.wrapper, detect := fun _ => true,
    peel_wrapper := fun b => Except.ok (0 :: b),
    peel_archive := null_archive }

/-- A file whose data fork is the single byte 1 (used to exercise the
sub-peel failure path). -/
def c5_file : PeelFile :=
  { meta := zeroMeta, data_fork := [1], resource_fork := [] }

deriving instance DecidableEq for Except

-- ===========================================================================
-- Theorems
-- ===========================================================================

/-- C3 (counterexample): decoding `[0x41, 0x81, 0x82, 0x03]` with the
Compact Pro RLE decoder produces `0x41 0x41 0x41` — not the claimed
`0x41 0x41` — and `[0x41, 0x81, 0x82, 0x05]` produces five `0x41` bytes,
not the claimed four: the run sequence `0x81 0x82 N` emits the saved byte
once plus `N - 2` pending copies, after the literal already emitted. -/
theorem c3_counterexample :
    (cp_rle_decode [0x41, 0x81, 0x82, 0x03] = [0x41, 0x41, 0x41] ∧
      cp_rle_decode [0x41, 0x81, 0x82, 0x03] ≠ [0x41, 0x41]) ∧
    (cp_rle_decode [0x41, 0x81, 0x82, 0x05] = [0x41, 0x41, 0x41, 0x41, 0x41] ∧
      cp_rle_decode [0x41, 0x81, 0x82, 0x05] ≠ [0x41, 0x41, 0x41, 0x41]) := by
  decide

/-- C3 (amended): the total run encoded by `literal, 0x81, 0x82, N` is `N`
bytes counting the literal emitted before the escape, so
`[0x41, 0x81, 0x82, 0x03]` decodes to three `0x41` bytes and
`[0x41, 0x81, 0x82, 0x05]` to five; the other two emit-sequences given by
the spec for this decoder hold as stated. -/
theorem c3_cp_rle_run_totals :
    cp_rle_decode [0x41, 0x81, 0x82, 0x03] = [0x41, 0x41, 0x41] ∧
    cp_rle_decode [0x41, 0x81, 0x82, 0x05] = [0x41, 0x41, 0x41, 0x41, 0x41] ∧
    cp_rle_decode [0x81, 0x82, 0x00] = [0x81, 0x82] ∧
    cp_rle_decode [0x81, 0x81, 0x42] = [0x81, 0x81, 0x42] := by
  decide

/-- C4: the StuffIt RLE90 decoder (method 1), with declared uncompressed
length 9, turns `[0x41, 0x42, 0x42, 0x90, 0x05, 0x90, 0x00, 0x43]` into
exactly `0x41 0x42 0x42 0x42 0x42 0x42 0x42 0x90 0x43` (through
`decompress_fork` with the matching fork CRC); and the `0x90 0x00` escape
emits a literal `0x90` without updating the remembered last byte, as the
second vector shows: the later run still repeats `0x41`, not `0x90`. -/
theorem c4_rle90_vector :
    decompress_fork sit_method_unavailable sit_method_unavailable
      { raw_len := 9, packed_len := 8,
        crc := sit_crc [0x41, 0x42, 0x42, 0x42, 0x42, 0x42, 0x42, 0x90, 0x43],
        method := 1, data := [0x41, 0x42, 0x42, 0x90, 0x05, 0x90, 0x00, 0x43] } =
      Except.ok [0x41, 0x42, 0x42, 0x42, 0x42, 0x42, 0x42, 0x90, 0x43] ∧
    sit_rle90 5 [0x41, 0x90, 0x00, 0x90, 0x03] = [0x41, 0x90, 0x41, 0x41] := by
  decide

/-- C1 (counterexample): `c1_archive` is a classic StuffIt archive whose
single entry's data-fork method byte is `0x10` — encryption flag (bit 4)
set, method ID 0 — yet `peel_sit` does not fail: it decompresses the fork
and returns it.  The encryption bit is never tested by `parse_classic`;
only bits 5–7 (`0xE0`) cause an entry to be skipped, and the method is
taken as the low nibble. -/
theorem c1_counterexample :
    c1_archive.getD 23 0 = 0x10 ∧ c1_archive.getD 23 0 &&& 0x10 ≠ 0 ∧
    peel_sit sit_method_unavailable sit_method_unavailable c1_archive =
      Except.ok [{ meta := { name := [0x41], mac_type := 0, mac_creator := 0, finder_flags := 0 },
                   data_fork := [0x41], resource_fork := [] }] := by
  set_option maxRecDepth 10000 in decide

/-- C1 (amended): classic StuffIt parsing ignores the encryption flag: any
entry header whose method bytes are not folder markers and have bits 5–7
(`0xE0`) clear — bit 4 may or may not be set — is parsed as a regular file
entry whose fork methods are the low nibbles of the method bytes, and the
loop continues past it without error; no field of the archive carrying
bit 4 causes `parse_classic` to reject the fork. -/
theorem c1_encryption_flag_ignored (blob : List Nat) (archive_off remaining cursor : Nat)
    (dirs : List (List Nat)) (acc : List SitEntry) (rm dm rclen dclen : Nat)
    (hrm : ((blob.drop archive_off).drop cursor).getD 0 0 = rm)
    (hdm : ((blob.drop archive_off).drop cursor).getD 1 0 = dm)
    (hrc : rd32be (((blob.drop archive_off).drop cursor).drop 92) = rclen)
    (hdc : rd32be (((blob.drop archive_off).drop cursor).drop 96) = dclen)
    (hfit : ¬ blob.length - archive_off < cursor + 112)
    (hrm20 : rm ≠ 0x20) (hdm20 : dm ≠ 0x20) (hrm21 : rm ≠ 0x21) (hdm21 : dm ≠ 0x21)
    (hrmE : rm &&& 0xE0 = 0) (hdmE : dm &&& 0xE0 = 0)
    (hbound : ¬ blob.length < archive_off + cursor + 112 + rclen + dclen)
    (hcap : acc.length < 65536) :
    ∃ ent : SitEntry,
      parse_classic_loop blob archive_off (remaining + 1) cursor dirs acc =
        parse_classic_loop blob archive_off remaining
          ((cursor + 112 + rclen + dclen) % 4294967296) dirs (acc ++ [ent]) ∧
      ent.data_fork.method = dm &&& 0x0F ∧
      ent.rsrc_fork.method = rm &&& 0x0F := by
  simp only [parse_classic_loop, hrm, hdm, hrc, hdc]
  rw [if_neg hfit, if_neg (by simp [hrm20, hdm20]), if_neg (by simp [hrm21, hdm21]),
      if_neg (by simp [hrmE, hdmE]), if_neg (by omega), if_neg (by omega)]
  exact ⟨_, rfl, rfl, rfl⟩

/-- C1 (witness): the amended theorem applied to the entry of `c1_archive`
(resource method byte `0x00`, data method byte `0x10` with bit 4 set). -/
theorem c1_witness :
    ∃ ent : SitEntry,
      parse_classic_loop c1_archive 0 (0 + 1) 22 [] [] =
        parse_classic_loop c1_archive 0 0 ((22 + 112 + 0 + 1) % 4294967296) [] ([] ++ [ent]) ∧
      ent.data_fork.method = 0x10 &&& 0x0F ∧
      ent.rsrc_fork.method = 0x00 &&& 0x0F :=
  c1_encryption_flag_ignored c1_archive 0 0 22 [] [] 0x00 0x10 0 1
    (by set_option maxRecDepth 10000 in decide) (by set_option maxRecDepth 10000 in decide)
    (by set_option maxRecDepth 10000 in decide) (by set_option maxRecDepth 10000 in decide)
    (by set_option maxRecDepth 10000 in decide) (by decide) (by decide) (by decide)
    (by decide) (by decide) (by decide)
    (by set_option maxRecDepth 10000 in decide) (by decide)

/-- C10: when the next 112-byte entry header would extend past the end of
input while entries are still expected (`done < file_count`, i.e. at least
one more remaining), classic parsing stops and returns the entries parsed
so far with no error; concretely, `peel_sit` on an archive declaring two
files but containing only one returns that one file successfully. -/
theorem c10_truncated_header_stops_quietly :
    (∀ (blob : List Nat) (archive_off remaining cursor : Nat)
       (dirs : List (List Nat)) (acc : List SitEntry),
       blob.length - archive_off < cursor + 112 →
       parse_classic_loop blob archive_off (remaining + 1) cursor dirs acc = Except.ok acc) ∧
    peel_sit sit_method_unavailable sit_method_unavailable c10_archive =
      Except.ok [{ meta := { name := [0x41], mac_type := 0, mac_creator := 0, finder_flags := 0 },
                   data_fork := [0x41], resource_fork := [] }] := by
  constructor
  · intro blob archive_off remaining cursor dirs acc h
    simp only [parse_classic_loop]
    rw [if_pos h]
  · set_option maxRecDepth 10000 in decide

/-- C10 (witness): the first part of the theorem applied to `c10_archive`
at the point reached after its single complete entry: cursor 135, one entry
still expected, remaining input too short for another header. -/
theorem c10_witness :
    parse_classic_loop c10_archive 0 (0 + 1) 135 [] [] = Except.ok [] :=
  c10_truncated_header_stops_quietly.1 c10_archive 0 0 135 [] []
    (by set_option maxRecDepth 10000 in decide)

/-- Adding an entry preserves the LZW dictionary invariant: the size grows
only while below the cap and the width widens only while below 14 bits. -/
lemma lzw_add_entry_inv (z : LzwState) (p b : Nat) (h : lzw_inv z) :
    lzw_inv (lzw_add_entry z p b) := by
  simp only [lzw_add_entry]
  split_ifs with h1 h2
  · exact h
  · refine ⟨?_, ?_, ?_⟩
    · show z.tbl_next + 1 ≤ LZW_TABLE_CAP
      omega
    · show 9 ≤ z.code_bits + 1
      omega
    · show z.code_bits + 1 ≤ LZW_MAX_BITS
      have := h2.2.2
      omega
  · exact ⟨by show z.tbl_next + 1 ≤ LZW_TABLE_CAP; omega, h.2.1, h.2.2⟩

/-- `lzw_next_code` leaves the dictionary size and code width unchanged. -/
lemma lzw_next_code_preserves (z z1 : LzwState) (code : Nat)
    (hc : lzw_next_code z = some (code, z1)) :
    z1.tbl_next = z.tbl_next ∧ z1.code_bits = z.code_bits := by
  simp only [lzw_next_code] at hc
  split_ifs at hc
  simp only [Option.some.injEq, Prod.mk.injEq] at hc
  rw [← hc.2]
  exact ⟨rfl, rfl⟩

/-- Any run of `lzw_decode` preserves the invariant (induction on fuel). -/
lemma lzw_decode_inv (fuel : Nat) : ∀ (z : LzwState) (want : Nat),
    lzw_inv z → lzw_inv (lzw_decode z want fuel).2 := by
  induction fuel with
  | zero => intro z want h; exact h
  | succ fuel ih =>
    intro z want h
    rw [lzw_decode]
    by_cases hw : want = 0
    · rw [if_pos hw]; exact h
    rw [if_neg hw]
    by_cases hs : z.stage ≠ []
    · rw [if_pos hs]; exact ih _ _ h
    rw [if_neg hs]
    rcases hc : lzw_next_code z with _ | ⟨code, z1⟩
    · exact h
    obtain ⟨ht, hb⟩ := lzw_next_code_preserves z z1 code hc
    have hz1 : lzw_inv z1 := ⟨ht ▸ h.1, hb ▸ h.2.1, hb ▸ h.2.2⟩
    simp only
    by_cases hclear : code = LZW_CLEAR_CODE
    · rw [if_pos hclear]
      refine ih _ _ ⟨?_, ?_, ?_⟩ <;> show (_ : Nat) ≤ _ <;> norm_num
    rw [if_neg hclear]
    rcases hp : z1.prev with _ | p
    · simp only [hp]
      by_cases hcode : code < 256
      · rw [if_pos hcode]
        exact ih _ _ hz1
      · rw [if_neg hcode]
        exact ih _ _ hz1
    · simp only [hp]
      have h2 := lzw_add_entry_inv z1 p
        (if code < z1.tbl_next then z1.head code else z1.head p) hz1
      by_cases hcode :
          code < (lzw_add_entry z1 p
            (if code < z1.tbl_next then z1.head code else z1.head p)).tbl_next
      · rw [if_pos hcode]
        exact ih _ _ h2
      · rw [if_neg hcode]
        exact ih _ _ h2

/-- C9: the StuffIt LZW dictionary is bounded — a full dictionary ignores
further `lzw_add_entry` requests (the state is returned unchanged, with no
error), the freshly created decoder satisfies the invariant, and both
`lzw_add_entry` and any run of `lzw_decode` preserve it: the table never
exceeds 16384 entries and the code width stays between 9 and 14 bits until
a clear code resets them to 257 and 9. -/
theorem c9_lzw_dictionary_bounded :
    (∀ (z : LzwState) (p b : Nat), LZW_TABLE_CAP ≤ z.tbl_next → lzw_add_entry z p b = z) ∧
    (∀ src : List Nat, lzw_inv (lzw_create src)) ∧
    (∀ (z : LzwState) (p b : Nat), lzw_inv z → lzw_inv (lzw_add_entry z p b)) ∧
    (∀ (fuel : Nat) (z : LzwState) (want : Nat), lzw_inv z → lzw_inv (lzw_decode z want fuel).2) := by
  refine ⟨?_, ?_, lzw_add_entry_inv, lzw_decode_inv⟩
  · intro z p b h
    rw [lzw_add_entry, if_pos h]
  · intro src
    exact ⟨by simp [lzw_create, LZW_FIRST_NEW, LZW_TABLE_CAP],
           by simp [lzw_create], by simp [lzw_create, LZW_MAX_BITS]⟩

/-- C9 (witness): the theorem applied to a full dictionary state and to a
decode run from a freshly created decoder over a concrete stream. -/
theorem c9_witness :
    lzw_add_entry c9_full_state 0 0 = c9_full_state ∧
    lzw_inv (lzw_decode (lzw_create [7, 7, 7]) 5 (lzw_fuel (lzw_create [7, 7, 7]) 5)).2 :=
  ⟨c9_lzw_dictionary_bounded.1 c9_full_state 0 0 (by decide),
   c9_lzw_dictionary_bounded.2.2.2 (lzw_fuel (lzw_create [7, 7, 7]) 5)
     (lzw_create [7, 7, 7]) 5 (by decide)⟩

/-- C8: a BinHex fork whose header-declared length is 0 still consumes a
two-byte CRC field from the decoded stream, and the read succeeds exactly
when that stored field is `0x0000`; any nonzero value is the fatal
fork-CRC-mismatch error (which `hqx_decode` propagates, failing the whole
decode). -/
theorem c8_empty_fork_crc (d d' : HqxDec) (b0 b1 : Nat) (fork_tag : String)
    (h : hqx_read_bytes d 2 = Except.ok ([b0, b1], d')) :
    hqx_read_fork d 0 fork_tag =
      if 256 * b0 + b1 = 0 then Except.ok ([], d')
      else Except.error ("BinHex: " ++ fork_tag ++ " fork CRC mismatch (empty fork, expected 0x0000)") := by
  rw [hqx_read_fork, if_pos rfl, h]
  show (if rd16be [b0, b1] ≠ 0x0000 then
          Except.error ("BinHex: " ++ fork_tag ++ " fork CRC mismatch (empty fork, expected 0x0000)")
        else Except.ok ([], d')) = _
  have hr : rd16be [b0, b1] = 256 * b0 + b1 := rfl
  by_cases hz : 256 * b0 + b1 = 0
  · rw [if_pos hz, if_neg (by rw [hr]; omega)]
  · rw [if_neg hz, if_pos (by rw [hr]; omega)]

/-- C8 (witness): the theorem applied to the concrete decoder state
`c8_dec`, whose next two decoded bytes are `0x00 0x01` — a nonzero stored
CRC for a zero-length fork, so the read fails with the CRC-mismatch
error. -/
theorem c8_witness :
    hqx_read_fork c8_dec 0 "resource" =
      Except.error "BinHex: resource fork CRC mismatch (empty fork, expected 0x0000)" := by
  rw [c8_empty_fork_crc c8_dec c8_dec_after 0 1 "resource" (by decide)]
  decide

/-- `peel_loop` with no detected format wraps the buffer unchanged. -/
lemma peel_loop_detect_none (fmts : List PeelFormat)
    (sp : List Nat → Except String (List PeelFile)) (n : Nat) (cur : List Nat)
    (h : detect_format fmts cur = none) :
    peel_loop fmts sp (n + 1) cur = Except.ok (wrap_single_file cur) := by
  rw [peel_loop, h]

/-- C2 (counterexample): `peel` on the empty input returns a single file
whose data fork and resource fork are both empty — the claimed invariant
"at least one fork is nonempty" fails on it. -/
theorem c2_counterexample :
    peel g_formats_inst [] =
      Except.ok [{ meta := zeroMeta, data_fork := [], resource_fork := [] }] := by
  set_option maxRecDepth 10000 in decide

/-- C2 (amended): an input in which no format is detected is returned by
`peel` as one nameless file whose data fork is the input and whose resource
fork is empty; so every returned file has a nonempty fork except the
single-file wrap of an empty buffer (in particular, empty input yields one
file with both forks empty).  Files built by the StuffIt archive path are
filtered to entries with a nonzero declared fork length. -/
theorem c2_unrecognized_input_wraps (fmts : List PeelFormat) (src : List Nat)
    (h : detect_format fmts src = none) :
    peel fmts src =
      Except.ok [{ meta := zeroMeta, data_fork := src, resource_fork := [] }] := by
  have e : peel fmts src = peel_loop fmts (peel_depth_aux fmts 31) (31 + 1) src := rfl
  rw [e, peel_loop_detect_none fmts _ 31 src h]
  rfl

/-- C2 (witness): the amended theorem applied to a one-byte input no
handler detects: the result is the nameless wrap of that byte. -/
theorem c2_witness :
    peel g_formats_inst [0x42] =
      Except.ok [{ meta := zeroMeta, data_fork := [0x42], resource_fork := [] }] :=
  c2_unrecognized_input_wraps g_formats_inst [0x42] rfl

/-- C5: a failed sub-peel during recursive re-peel is swallowed: if a
file's data fork detects as a wrapper but the depth-incremented sub-peel
fails, `recursive_peel_files` keeps the original file unchanged in place
and continues (it has no error result at all — the C can fail here only on
out-of-memory). -/
theorem c5_subpeel_failure_keeps_file (fmts : List PeelFormat)
    (subpeel : List Nat → Except String (List PeelFile))
    (f : PeelFile) (rest : List PeelFile) (fmt : PeelFormat) (e : String)
    (h1 : f.data_fork ≠ []) (h2 : detect_format fmts f.data_fork = some fmt)
    (h3 : fmt.kind = FmtKind.wrapper) (h4 : subpeel f.data_fork = Except.error e) :
    recursive_peel_files fmts subpeel (f :: rest) =
      f :: recursive_peel_files fmts subpeel rest := by
  have h1' : f.data_fork.isEmpty = false := by
    cases hf : f.data_fork
    · exact absurd hf h1
    · rfl
  simp [recursive_peel_files, h1', h2, h3, h4]

/-- C5 (witness): the theorem applied to a concrete file and a one-entry
handler table whose wrapper peel always fails. -/
theorem c5_witness :
    recursive_peel_files [failing_wrapper] (peel_depth_aux [failing_wrapper] 1) [c5_file] =
      c5_file :: recursive_peel_files [failing_wrapper] (peel_depth_aux [failing_wrapper] 1) [] :=
  c5_subpeel_failure_keeps_file [failing_wrapper] (peel_depth_aux [failing_wrapper] 1)
    c5_file [] failing_wrapper "wrapper peel failed"
    (by decide) rfl rfl (by decide)

/-- Under a table in which every buffer detects as a wrapper that peels
successfully (to `g` of the buffer), the wrapper loop iterates exactly its
bound and wraps the `n`-fold peel. -/
lemma peel_loop_all_wrappers (fmts : List PeelFormat)
    (sp : List Nat → Except String (List PeelFile)) (g : List Nat → List Nat)
    (H : ∀ b, ∃ fmt, detect_format fmts b = some fmt ∧ fmt.kind = FmtKind.wrapper ∧
          fmt.peel_wrapper b = Except.ok (g b)) :
    ∀ (n : Nat) (cur : List Nat),
      peel_loop fmts sp n cur = Except.ok (wrap_single_file (g^[n] cur)) := by
  intro n
  induction n with
  | zero => intro cur; rfl
  | succ n ih =>
    intro cur
    obtain ⟨fmt, hdet, hkind, hpeel⟩ := H cur
    rw [peel_loop, hdet]
    simp only [hkind, hpeel, ih (g cur), Function.iterate_succ_apply]

/-- C6: `peel` terminates on every input with hard bounds of 32 layers:
at recursion depth 32 or beyond the buffer is returned immediately as a
single unnamed file, and an input that detects as a wrapper indefinitely
(every buffer detects as a successfully peeling wrapper) still returns —
as the single-file wrap of the buffer obtained after exactly 32 wrapper
layers. -/
theorem c6_termination_bounds :
    (∀ (fmts : List PeelFormat) (src : List Nat) (depth : Nat),
       MAX_PEEL_DEPTH ≤ depth →
       peel_depth fmts src depth = Except.ok (wrap_single_file src)) ∧
    (∀ (fmts : List PeelFormat) (g : List Nat → List Nat) (src : List Nat),
       (∀ b, ∃ fmt, detect_format fmts b = some fmt ∧ fmt.kind = FmtKind.wrapper ∧
             fmt.peel_wrapper b = Except.ok (g b)) →
       peel fmts src = Except.ok (wrap_single_file (g^[MAX_PEEL_DEPTH] src))) := by
  constructor
  · intro fmts src depth h
    unfold peel_depth
    rw [Nat.sub_eq_zero_of_le h]
    rfl
  · intro fmts g src H
    have e : peel fmts src = peel_loop fmts (peel_depth_aux fmts 31) (31 + 1) src := rfl
    rw [e, peel_loop_all_wrappers fmts _ g H (31 + 1) src]

/-- C6 (witness): both bounds at concrete inputs — depth 40 returns the
input wrapped, and a table that always detects a successfully peeling
wrapper still returns, after exactly 32 layers. -/
theorem c6_witness :
    peel_depth [endless_wrapper] [5] 40 = Except.ok (wrap_single_file [5]) ∧
    peel [endless_wrapper] [] =
      Except.ok (wrap_single_file ((fun b => 0 :: b)^[MAX_PEEL_DEPTH] [])) :=
  ⟨c6_termination_bounds.1 [endless_wrapper] [5] 40 (by decide),
   c6_termination_bounds.2 [endless_wrapper] (fun b => 0 :: b) []
     (fun _ => ⟨endless_wrapper, rfl, rfl, rfl⟩)⟩

/-- C7: whenever MacBinary decoding succeeds, the wrapper peel returns the
resource fork exactly when the data fork does not begin with a recognized
StuffIt signature and the resource fork is nonempty; in every other case
(data fork carries a StuffIt signature, or the resource fork is empty) it
returns the data fork. -/
theorem c7_fork_selection (src : List Nat) (f : PeelFile)
    (h : bin_decode src = Except.ok f) :
    peel_bin src =
      Except.ok (if looks_like_sit f.data_fork ∨ f.resource_fork.length = 0
                 then f.data_fork else f.resource_fork) := by
  have hsit_nil : looks_like_sit [] = false := by decide
  simp only [peel_bin, h]
  have hiff : ((¬ f.data_fork.isEmpty ∧ looks_like_sit f.data_fork) ∨
      f.resource_fork.length = 0) ↔
      (looks_like_sit f.data_fork ∨ f.resource_fork.length = 0) := by
    cases hf : f.data_fork
    · simp [hf, hsit_nil]
    · simp [hf]
  rw [if_congr hiff rfl rfl]
  split_ifs <;> rfl

set_option maxRecDepth 10000 in
/-- C7 (witness): the theorem applied to a MacBinary I input with an empty
data fork and a one-byte resource fork: the resource fork is returned. -/
theorem c7_witness : peel_bin c7_input = Except.ok [0x42] := by
  have hval : bin_validate c7_input = true := by
    unfold bin_validate
    rw [if_neg (by decide), if_neg (by decide), if_neg (by decide)]
    split_ifs
    · decide
    · rfl
  have h : bin_decode c7_input =
      Except.ok { meta := { name := [0x41], mac_type := 0, mac_creator := 0, finder_flags := 0 },
                  data_fork := [], resource_fork := [0x42] } := by
    unfold bin_decode
    rw [if_neg (by decide), if_neg (by simp [hval])]
    decide
  rw [c7_fork_selection c7_input _ h]
  decide

end Peeler
